import Mathlib

/-!
Shallow embedding of the study-companion web page's streak engine, storage
adapter and Pomodoro timer engine (js/storage.js, js/streak.js, js/timer.js),
together with theorems settling the specification's claims against it.

Modelling conventions:
* Instants are epoch milliseconds, as natural numbers (JS `Date.now()` values
  are integers well below 2^53, so float arithmetic on them is exact).
* `Date.prototype.toDateString` is abstracted as the calendar-day index
  `t / 86400000` (a fixed timezone with no DST); parsing a date-only string
  back with `new Date(dateString)` yields local midnight of that day,
  modelled as `dayIndex * 86400000`.
* Streak operations return the updated record together with the list of
  `streakMilestone` event payloads dispatched during the call; timer
  operations act on a `TimerWorld` bundling the timer state, the configured
  durations, the persisted session stats and the list of `timerComplete`
  events dispatched so far.
-/

namespace LSAT

/-! ## Storage date utilities (js/storage.js) -/

def msPerDay : Nat := 86400000

/-- Abstraction of `new Date(t).toDateString()`: the calendar-day index of an
epoch-millisecond instant. -/
def toDateString (t : Nat) : Nat := t / msPerDay

/-- Embeds `Storage.getTodayString()`: the date string of the current instant. -/
def getTodayString (now : Nat) : Nat := toDateString now

/-- Model of `new Date(dateString)`: applied to a date-only string parses to local
midnight of that day. -/
def dateStringToMs (d : Nat) : Nat := d * msPerDay

/-- Embeds `Storage.isToday(dateString)`: `false` for a null date, otherwise compares
the date string of the stored instant with the date string of `now`. -/
def isToday (dateString : Option Nat) (now : Nat) : Bool :=
  match dateString with
  | none => false
  | some t => toDateString t == toDateString now

/-- Embeds `Storage.getDaysBetween(date1, date2)`: `floor(abs(d2 - d1) / 86400000)`
on the millisecond values of the two dates. -/
def getDaysBetween (date1 date2 : Nat) : Nat :=
  (((date2 : Int) - (date1 : Int)).natAbs) / msPerDay

/-! ## Streak engine (js/streak.js) -/

structure StreakRecord where
  currentStreak : Nat
  longestStreak : Nat
  totalDays : Nat
  lastVisit : Option Nat
  startDate : Nat
deriving Repr, DecidableEq

/-- The default record `Storage.getStreakData()` returns when nothing is
stored: all counters zero, no last visit.  (Its `startDate` is the creation
instant; the claims never inspect it, so it is fixed at 0 here.) -/
def defaultStreakRecord : StreakRecord :=
  { currentStreak := 0, longestStreak := 0, totalDays := 0,
    lastVisit := none, startDate := 0 }

/-- The milestone table of `Streak.celebrateMilestone`. -/
def milestones : List Nat := [3, 7, 14, 30, 50, 100]

/-- Embeds `Streak.celebrateMilestone(streak)`: the `streakMilestone` events this
call dispatches (one if `streak` is in the milestone table, none otherwise). -/
def celebrateMilestone (streak : Nat) : List Nat :=
  if milestones.contains streak then [streak] else []

/-- Embeds `Streak.startStreak()` at instant `now`. -/
def startStreak (r : StreakRecord) (now : Nat) : StreakRecord × List Nat :=
  ({ r with currentStreak := 1,
            longestStreak := max 1 r.longestStreak,
            totalDays := 1,
            lastVisit := some now },
   celebrateMilestone 1)

/-- Embeds `Streak.incrementStreak()` at instant `now`. -/
def incrementStreak (r : StreakRecord) (now : Nat) : StreakRecord × List Nat :=
  let cs := r.currentStreak + 1
  ({ r with currentStreak := cs,
            totalDays := r.totalDays + 1,
            lastVisit := some now,
            longestStreak := if cs > r.longestStreak then cs else r.longestStreak },
   celebrateMilestone cs)

/-- Embeds `Streak.resetStreak()` at instant `now` (no milestone check). -/
def resetStreak (r : StreakRecord) (now : Nat) : StreakRecord × List Nat :=
  ({ r with currentStreak := 1,
            totalDays := r.totalDays + 1,
            lastVisit := some now },
   [])

/-- Embeds `Streak.checkStreak()` at instant `now`.  Note that the source passes
`today` — a date-only string — as the second argument of `getDaysBetween`,
so that argument re-parses to midnight of the current day, while the first
argument is the full `lastVisit` timestamp. -/
def checkStreak (r : StreakRecord) (now : Nat) : StreakRecord × List Nat :=
  let today := getTodayString now
  match r.lastVisit with
  | none => startStreak r now
  | some lastVisit =>
    if isToday (some lastVisit) now then (r, [])
    else
      let daysSinceLastVisit := getDaysBetween lastVisit (dateStringToMs today)
      if daysSinceLastVisit = 1 then incrementStreak r now
      else if daysSinceLastVisit > 1 then resetStreak r now
      else (r, [])

/-- Midnight of calendar day `k`. -/
def day (k : Nat) : Nat := k * msPerDay

/-- Streak records obtained from the default record by freely applying the
three update operations (as claim C6 words it). -/
inductive ReachableByOps : StreakRecord → Prop where
  | base : ReachableByOps defaultStreakRecord
  | start (r : StreakRecord) (now : Nat) :
      ReachableByOps r → ReachableByOps (startStreak r now).1
  | increment (r : StreakRecord) (now : Nat) :
      ReachableByOps r → ReachableByOps (incrementStreak r now).1
  | reset (r : StreakRecord) (now : Nat) :
      ReachableByOps r → ReachableByOps (resetStreak r now).1

/-- Streak records obtained from the default record through the program's
actual update entry point, `checkStreak` (which guards the three operations). -/
inductive ReachableByCheckStreak : StreakRecord → Prop where
  | base : ReachableByCheckStreak defaultStreakRecord
  | step (r : StreakRecord) (now : Nat) :
      ReachableByCheckStreak r → ReachableByCheckStreak (checkStreak r now).1

/-! ## Persisted timer stats (js/storage.js) -/

structure TimerData where
  sessionsToday : Nat
  totalSessions : Nat
  totalMinutes : ℚ
  lastSession : Option Nat
deriving Repr, DecidableEq

/-- The default record `Storage.getTimerData()` returns when nothing is
stored. -/
def defaultTimerData : TimerData :=
  { sessionsToday := 0, totalSessions := 0, totalMinutes := 0, lastSession := none }

/-- Embeds `Storage.incrementSession()`; `today` is the current date string.  The
daily counter is zeroed first whenever the stored `lastSession` date string
differs from today. -/
def incrementSession (data : TimerData) (today : Nat) : TimerData :=
  let data := if data.lastSession ≠ some today then { data with sessionsToday := 0 } else data
  { data with sessionsToday := data.sessionsToday + 1,
              totalSessions := data.totalSessions + 1,
              lastSession := some today }

/-- Embeds `Storage.addStudyTime(minutes)`. -/
def addStudyTime (data : TimerData) (minutes : ℚ) : TimerData :=
  { data with totalMinutes := data.totalMinutes + minutes }

/-! ## Pomodoro timer engine (js/timer.js) -/

inductive Mode where
  | work
  | «break»
deriving Repr, DecidableEq

/-- The `Timer.durations` table, in seconds. -/
structure Durations where
  work : Nat
  «break» : Nat
deriving Repr, DecidableEq

/-- Lookup `durations[mode]`. -/
def Durations.get (d : Durations) : Mode → Nat
  | Mode.work => d.work
  | Mode.«break» => d.«break»

/-- The mutable fields of `Timer.state` that the claims concern (the interval
handle and the unused `pausedTime` field are omitted; the 1-second tick
cadence is driven externally by the host's timer facility). -/
structure TimerState where
  isRunning : Bool
  isPaused : Bool
  mode : Mode
  timeRemaining : Nat
  startTime : Option Nat
  endTime : Option Nat
deriving Repr, DecidableEq

/-- The timer engine together with its collaborators: the configured
durations, the persisted `TimerData` stats, and the `timerComplete` events
dispatched so far (each recorded as the mode current at dispatch time). -/
structure TimerWorld where
  state : TimerState
  durations : Durations
  stats : TimerData
  completions : List Mode
deriving Repr, DecidableEq

namespace Timer

/-- Embeds `Timer.pause()`: no-op unless running; freezes the countdown. -/
def pause (w : TimerWorld) : TimerWorld :=
  if !w.state.isRunning then w
  else { w with state := { w.state with isRunning := false, isPaused := true } }

/-- Embeds `Timer.start()` at instant `now`: no-op if already running; on a fresh
start records `startTime` and the absolute target `endTime`; on a resume
from pause recomputes `endTime` from the frozen `timeRemaining`. -/
def start (w : TimerWorld) (now : Nat) : TimerWorld :=
  if w.state.isRunning then w
  else
    let s := { w.state with isRunning := true, isPaused := false }
    let s :=
      match s.startTime with
      | none => { s with startTime := some now,
                         endTime := some (now + s.timeRemaining * 1000) }
      | some _ => { s with endTime := some (now + s.timeRemaining * 1000) }
    { w with state := s }

/-- Embeds `Timer.changeMode(mode)`. -/
def changeMode (w : TimerWorld) (mode : Mode) : TimerWorld :=
  let w := pause w
  { w with state := { w.state with
                      mode := mode,
                      timeRemaining := w.durations.get mode,
                      startTime := none, endTime := none, isPaused := false } }

/-- Embeds `Timer.reset()`. -/
def reset (w : TimerWorld) : TimerWorld :=
  let w := pause w
  { w with state := { w.state with
                      timeRemaining := w.durations.get w.state.mode,
                      startTime := none, endTime := none, isPaused := false } }

/-- Embeds `Timer.showCompletionMessage(message)`: dispatches one `timerComplete`
event carrying the mode current at dispatch time. -/
def showCompletionMessage (w : TimerWorld) : TimerWorld :=
  { w with completions := w.completions ++ [w.state.mode] }

/-- Embeds `Timer.complete()` at instant `now`: stop; after a work session update
the persisted stats, announce, and auto-switch to break (without starting);
after a break announce and auto-switch back to work. -/
def complete (w : TimerWorld) (now : Nat) : TimerWorld :=
  let w := pause w
  if w.state.mode = Mode.work then
    let w := { w with stats := addStudyTime (incrementSession w.stats (getTodayString now))
                                 ((w.durations.work : ℚ) / 60) }
    let w := showCompletionMessage w
    changeMode w Mode.«break»
  else
    let w := showCompletionMessage w
    changeMode w Mode.work

/-- The value `Math.max(0, Math.ceil((this.state.endTime - now) / 1000))`
computed by `Timer.tick`.  For integers, `ceil(x / 1000)` is
`(x + 999) / 1000` with floor division; a null `endTime` coerces to 0 in
JS arithmetic, and the outcome is clamped at 0. -/
def timeLeft (endTime : Option Nat) (now : Nat) : Nat :=
  let e : Int := match endTime with | none => 0 | some t => (t : Int)
  (max 0 ((e - (now : Int) + 999) / 1000)).toNat

/-- Embeds `Timer.tick()` at instant `now`: recompute `timeRemaining` from the
absolute end time, then call `complete()` iff it reached 0. -/
def tick (w : TimerWorld) (now : Nat) : TimerWorld :=
  let tl := timeLeft w.state.endTime now
  let w := { w with state := { w.state with timeRemaining := tl } }
  if w.state.timeRemaining ≤ 0 then complete w now else w

/-- Embeds `Timer.setDurations(workMinutes, breakMinutes)`: store the new durations
(in seconds) and reset. -/
def setDurations (w : TimerWorld) (workMinutes breakMinutes : Nat) : TimerWorld :=
  let w := { w with durations := { work := workMinutes * 60, «break» := breakMinutes * 60 } }
  reset w

end Timer

/-! ## Key-value store adapter (js/storage.js `get`/`set`) -/

/-- The browser's localStorage contents: each key maps to a stored string or
to nothing (`getItem` returns null). -/
def Store : Type := String → Option String

/-- Embeds `Storage.get(key, defaultValue)`.  `parse` models `JSON.parse`, with
`none` standing for a thrown parse error.  A missing key yields the default;
an empty stored string is falsy in the JS conditional and also yields the
default; a payload the parser rejects is caught by the try/catch and yields
the default.  No error propagates: the function is total. -/
def Storage.get {α : Type} (parse : String → Option α) (store : Store)
    (key : String) (defaultValue : α) : α :=
  match store key with
  | none => defaultValue
  | some item =>
    if item = "" then defaultValue
    else
      match parse item with
      | none => defaultValue
      | some v => v

/-- Embeds `Storage.set(key, value)`.  `stringify` models `JSON.stringify`, and
`setItem` the browser write, which either returns the updated store or
throws (`none`, e.g. quota exceeded).  A throw is caught: the store is left
as it was and `false` is returned; a successful write returns `true`. -/
def Storage.set {α : Type} (stringify : α → String)
    (setItem : Store → String → String → Option Store)
    (store : Store) (key : String) (value : α) : Store × Bool :=
  match setItem store key (stringify value) with
  | none => (store, false)
  | some st2 => (st2, true)

/-! ## Concrete inputs used by the witness theorems -/

/-- A record whose last visit falls on the same calendar day as instant 7. -/
def sameDayRecord : StreakRecord :=
  { currentStreak := 4, longestStreak := 6, totalDays := 9,
    lastVisit := some 5, startDate := 0 }

/-- A record one visit short of the first milestone, last visited at the
instant 0 (midnight of day 0). -/
def nearMilestoneRecord : StreakRecord :=
  { currentStreak := 2, longestStreak := 2, totalDays := 2,
    lastVisit := some 0, startDate := 0 }

/-- An idle work-mode timer world with 10 seconds on the clock. -/
def idleWorld10 : TimerWorld :=
  { state := { isRunning := false, isPaused := false, mode := Mode.work,
               timeRemaining := 10, startTime := none, endTime := none },
    durations := { work := 1500, «break» := 300 },
    stats := defaultTimerData, completions := [] }

/-- A running work-mode timer world whose target end time is instant 5000. -/
def runningWorld5000 : TimerWorld :=
  { state := { isRunning := true, isPaused := false, mode := Mode.work,
               timeRemaining := 5, startTime := some 0, endTime := some 5000 },
    durations := { work := 1500, «break» := 300 },
    stats := defaultTimerData, completions := [] }

/-- The idle work-mode timer world of the claim C3 scenario: durations
`{work := 1500, break := 300}`, 1500 seconds on the clock, stats `stats`. -/
def c3World (stats : TimerData) : TimerWorld :=
  { state := { isRunning := false, isPaused := false, mode := Mode.work,
               timeRemaining := 1500, startTime := none, endTime := none },
    durations := { work := 1500, «break» := 300 },
    stats := stats, completions := [] }

/-- An empty store and a parser and writer that always fail, for the C9
witness. -/
def emptyStore : Store := fun _ => none

def failingParse : String → Option Nat := fun _ => none

def natStringify : Nat → String := fun _ => "0"

def failingSetItem : Store → String → String → Option Store := fun _ _ _ => none

def succeedingSetItem : Store → String → String → Option Store :=
  fun st key value => some (fun k => if k = key then some value else st k)

def probeKey : String := "someKey"

/-- The pause/resume scenario of claim C2: start at `t0`, tick once per
second for 5 seconds, pause, let 10 further wall-clock seconds elapse with
no tick, resume at `t0 + 15000`, and tick immediately. -/
def pauseResumeScenario (w : TimerWorld) (t0 : Nat) : TimerWorld :=
  let w1 := Timer.start w t0
  let w2 := Timer.tick w1 (t0 + 1000)
  let w3 := Timer.tick w2 (t0 + 2000)
  let w4 := Timer.tick w3 (t0 + 3000)
  let w5 := Timer.tick w4 (t0 + 4000)
  let w6 := Timer.tick w5 (t0 + 5000)
  let w7 := Timer.pause w6
  let w8 := Timer.start w7 (t0 + 15000)
  Timer.tick w8 (t0 + 15000)

/-- The claim C3 scenario run: start the work timer at t = 0 and tick at
t = 1500000 ms. -/
def c3Run (stats : TimerData) : TimerWorld :=
  Timer.tick (Timer.start (c3World stats) 0) 1500000

/-- The record after reconciling the default record at midnight of day 0. -/
def c1Day0 : StreakRecord := (checkStreak defaultStreakRecord (day 0)).1

/-- The record after then reconciling again at midnight of day 1. -/
def c1Day1 : StreakRecord := (checkStreak c1Day0 (day 1)).1

/-- The record after then reconciling at midnight of day 3 (day 2 skipped). -/
def c1Day3 : StreakRecord := (checkStreak c1Day1 (day 3)).1

/-! ## Streak engine claims -/

/-- Claim C1: from the default StreakRecord, reconciling at day 0 yields
streak 1/1/1 (current/longest/total); reconciling again at day 1 yields
2/2/2; reconciling next at day 3 (day 2 skipped) yields 1/2/3. -/
theorem C1_streak_three_day_scenario :
    (c1Day0.currentStreak = 1 ∧ c1Day0.longestStreak = 1 ∧ c1Day0.totalDays = 1) ∧
    (c1Day1.currentStreak = 2 ∧ c1Day1.longestStreak = 2 ∧ c1Day1.totalDays = 2) ∧
    (c1Day3.currentStreak = 1 ∧ c1Day3.longestStreak = 2 ∧ c1Day3.totalDays = 3) := by
  decide

/-- Claim C5: when the record's last visit falls on the same calendar day as
`now`, `checkStreak` leaves every field unchanged and emits nothing, so a
second reconciliation within one day is a no-op. -/
theorem C5_reconcile_idempotent_same_day (r : StreakRecord) (now : Nat)
    (h : isToday r.lastVisit now = true) :
    checkStreak r now = (r, []) := by
  obtain ⟨cs, ls, td, lv, sd⟩ := r
  cases lv with
  | none => simp [isToday] at h
  | some t => simp [checkStreak, h]

/-- Witness for C5 at a concrete same-day record. -/
theorem C5_witness :
    isToday sameDayRecord.lastVisit 7 = true ∧
    checkStreak sameDayRecord 7 = (sameDayRecord, []) :=
  ⟨by decide, C5_reconcile_idempotent_same_day sameDayRecord 7 (by decide)⟩

/-- Claim C6 counterexample: applying `resetStreak` directly to the default
record — a state the claim's phrasing admits as reachable by the streak
operations — produces `currentStreak = 1 > 0 = longestStreak`, violating the
invariant. -/
theorem C6_counterexample :
    ReachableByOps (resetStreak defaultStreakRecord 0).1 ∧
    ¬ ((resetStreak defaultStreakRecord 0).1.longestStreak ≥
       (resetStreak defaultStreakRecord 0).1.currentStreak) :=
  ⟨ReachableByOps.reset defaultStreakRecord 0 ReachableByOps.base, by decide⟩

/-- One reconciliation step preserves the strengthened streak invariant:
the longest streak dominates the current one, and once a visit has been
recorded the longest streak is at least 1. -/
theorem checkStreak_preserves_inv (r : StreakRecord) (now : Nat)
    (h1 : r.currentStreak ≤ r.longestStreak)
    (h2 : r.lastVisit ≠ none → 1 ≤ r.longestStreak) :
    (checkStreak r now).1.currentStreak ≤ (checkStreak r now).1.longestStreak ∧
    ((checkStreak r now).1.lastVisit ≠ none → 1 ≤ (checkStreak r now).1.longestStreak) := by
  obtain ⟨cs, ls, td, lv, sd⟩ := r
  cases lv with
  | none =>
    simp [checkStreak, startStreak]
  | some t =>
    by_cases ht : isToday (some t) now = true
    · simp [checkStreak, ht, h1]
      exact h2 (by simp)
    · have h2t : 1 ≤ ls := h2 (by simp)
      simp only [checkStreak, Bool.not_eq_true] at ht ⊢
      rw [ht]
      by_cases hd1 : getDaysBetween t (dateStringToMs (getTodayString now)) = 1
      · simp [hd1, incrementStreak]
        constructor
        · split_ifs <;> omega
        · split_ifs <;> omega
      · by_cases hd2 : getDaysBetween t (dateStringToMs (getTodayString now)) > 1
        · simp [hd1, hd2, resetStreak]
          omega
        · simp [hd1, hd2, h1]
          exact h2t

/-- Claim C6 amended: for every StreakRecord reachable from the default
record through the reconciliation entry point `checkStreak` (which invokes
startStreak, incrementStreak and resetStreak only under its guards),
`longestStreak ≥ currentStreak` holds after every update.  (Applying
`resetStreak` directly to the default record escapes this and violates the
invariant, as the counterexample shows.) -/
theorem C6_longest_dominates_current (r : StreakRecord)
    (h : ReachableByCheckStreak r) :
    r.longestStreak ≥ r.currentStreak := by
  have key : r.currentStreak ≤ r.longestStreak ∧
      (r.lastVisit ≠ none → 1 ≤ r.longestStreak) := by
    induction h with
    | base => exact ⟨Nat.le_refl 0, by simp [defaultStreakRecord]⟩
    | step r now hr ih => exact checkStreak_preserves_inv r now ih.1 ih.2
  exact key.1

/-- Witness for C6 (amended) at the record reached by one reconciliation of
the default record. -/
theorem C6_witness :
    (checkStreak defaultStreakRecord 0).1.longestStreak ≥
    (checkStreak defaultStreakRecord 0).1.currentStreak :=
  C6_longest_dominates_current _
    (ReachableByCheckStreak.step defaultStreakRecord 0 ReachableByCheckStreak.base)

/-- Claim C7: a `streakMilestone` event is published exactly when the
reconciliation moves `currentStreak` to a new value inside the milestone
table {3,7,14,30,50,100} — one event, carrying that value — and a same-day
repeat reconciliation publishes nothing. -/
theorem C7_milestone_exactly_once (r : StreakRecord) (now : Nat) :
    ((checkStreak r now).2 =
      if (checkStreak r now).1.currentStreak ≠ r.currentStreak ∧
         milestones.contains (checkStreak r now).1.currentStreak = true
      then [(checkStreak r now).1.currentStreak] else []) ∧
    (isToday r.lastVisit now = true → (checkStreak r now).2 = []) := by
  obtain ⟨cs, ls, td, lv, sd⟩ := r
  cases lv with
  | none =>
    constructor
    · simp [checkStreak, startStreak, celebrateMilestone, milestones]
    · intro h
      simp [isToday] at h
  | some t =>
    by_cases ht : isToday (some t) now = true
    · simp [checkStreak, ht]
    · simp only [checkStreak, Bool.not_eq_true] at ht ⊢
      rw [ht]
      constructor
      · by_cases hd1 : getDaysBetween t (dateStringToMs (getTodayString now)) = 1
        · simp only [hd1, if_pos rfl, incrementStreak, celebrateMilestone]
          by_cases hm : milestones.contains (cs + 1) = true
          · simp [hm]
          · simp [hm]
        · by_cases hd2 : getDaysBetween t (dateStringToMs (getTodayString now)) > 1
          · simp [hd1, hd2, resetStreak, milestones]
          · simp [hd1, hd2]
      · intro hc
        exact Bool.noConfusion hc

/-- Witness for C7: reconciling a 2-day streak last visited at midnight of
day 0 at midnight of day 1 reaches the milestone 3 and emits exactly one
event carrying 3. -/
theorem C7_witness : (checkStreak nearMilestoneRecord (day 1)).2 = [3] := by
  have h := C7_milestone_exactly_once nearMilestoneRecord (day 1)
  rw [h.1]
  decide

/-! ## Timer engine claims -/

/-- Pausing a running timer only flips the running/paused flags. -/
theorem pause_running (ip : Bool) (m : Mode) (tr : Nat) (st et : Option Nat)
    (d : Durations) (stats : TimerData) (comps : List Mode) :
    Timer.pause ⟨⟨true, ip, m, tr, st, et⟩, d, stats, comps⟩ =
      ⟨⟨false, true, m, tr, st, et⟩, d, stats, comps⟩ := by
  simp [Timer.pause]

/-- A fresh start (no recorded start time) records `startTime` and arms the
absolute end time from the remaining seconds. -/
theorem start_idle_fresh (ip : Bool) (m : Mode) (tr t0 : Nat) (et : Option Nat)
    (d : Durations) (stats : TimerData) (comps : List Mode) :
    Timer.start ⟨⟨false, ip, m, tr, none, et⟩, d, stats, comps⟩ t0 =
      ⟨⟨true, false, m, tr, some t0, some (t0 + tr * 1000)⟩, d, stats, comps⟩ := by
  simp [Timer.start]

/-- A resume (a start time is already recorded) recomputes the absolute end
time from the frozen remaining seconds. -/
theorem start_resume (ip : Bool) (m : Mode) (tr t0 s0 : Nat) (et : Option Nat)
    (d : Durations) (stats : TimerData) (comps : List Mode) :
    Timer.start ⟨⟨false, ip, m, tr, some s0, et⟩, d, stats, comps⟩ t0 =
      ⟨⟨true, false, m, tr, some s0, some (t0 + tr * 1000)⟩, d, stats, comps⟩ := by
  simp [Timer.start]

/-- A tick at `now` against end time `now + k * 1000` with `0 < k` only
rewrites `timeRemaining` to `k`. -/
theorem tick_running (ir ip : Bool) (m : Mode) (tr : Nat) (st : Option Nat)
    (now k e : Nat) (d : Durations) (stats : TimerData) (comps : List Mode)
    (hk : e = now + k * 1000) (hpos : 0 < k) :
    Timer.tick ⟨⟨ir, ip, m, tr, st, some e⟩, d, stats, comps⟩ now =
      ⟨⟨ir, ip, m, k, st, some e⟩, d, stats, comps⟩ := by
  have htl : Timer.timeLeft (some e) now = k := by
    simp only [Timer.timeLeft]
    subst hk
    push_cast
    omega
  simp [Timer.tick, htl, hpos.ne']

/-- Claim C2: starting an idle timer with R seconds remaining, ticking for
5 seconds, pausing, waiting 10 further wall-clock seconds without ticks,
resuming and ticking leaves R - 5 seconds remaining (not R - 15): the
paused interval is excluded from elapsed time. -/
theorem C2_pause_freezes_countdown (ip : Bool) (m : Mode) (et : Option Nat)
    (d : Durations) (stats : TimerData) (comps : List Mode) (t0 R : Nat)
    (hR : 5 < R) :
    (pauseResumeScenario ⟨⟨false, ip, m, R, none, et⟩, d, stats, comps⟩ t0).state.timeRemaining
        = R - 5 ∧
    (pauseResumeScenario ⟨⟨false, ip, m, R, none, et⟩, d, stats, comps⟩ t0).state.timeRemaining
        ≠ R - 15 := by
  simp only [pauseResumeScenario]
  rw [start_idle_fresh]
  rw [tick_running true false m R (some t0) (t0 + 1000) (R - 1) (t0 + R * 1000)
      d stats comps (by omega) (by omega)]
  rw [tick_running true false m (R - 1) (some t0) (t0 + 2000) (R - 2) (t0 + R * 1000)
      d stats comps (by omega) (by omega)]
  rw [tick_running true false m (R - 2) (some t0) (t0 + 3000) (R - 3) (t0 + R * 1000)
      d stats comps (by omega) (by omega)]
  rw [tick_running true false m (R - 3) (some t0) (t0 + 4000) (R - 4) (t0 + R * 1000)
      d stats comps (by omega) (by omega)]
  rw [tick_running true false m (R - 4) (some t0) (t0 + 5000) (R - 5) (t0 + R * 1000)
      d stats comps (by omega) (by omega)]
  rw [pause_running]
  rw [start_resume]
  rw [tick_running true false m (R - 5) (some t0) (t0 + 15000) (R - 5)
      ((t0 + 15000) + (R - 5) * 1000) d stats comps rfl (by omega)]
  exact ⟨rfl, by simp only []; omega⟩

/-- Witness for C2 with 10 seconds on the clock: the scenario ends with 5
seconds remaining, not 0 (= 10 - 15 truncated). -/
theorem C2_witness :
    5 < 10 ∧
    (pauseResumeScenario idleWorld10 0).state.timeRemaining = 10 - 5 ∧
    (pauseResumeScenario idleWorld10 0).state.timeRemaining ≠ 10 - 15 :=
  have h := C2_pause_freezes_countdown false Mode.work none
    { work := 1500, «break» := 300 } defaultTimerData [] 0 10 (by decide)
  ⟨by decide, h.1, h.2⟩

/-- Claim C4: while an end time E is armed, a tick at instant `now` derives
`timeRemaining` as max(0, ceil((E - now)/1000)) from the absolute end time
— independently of the previous `timeRemaining`, i.e. never by
decrementing — and invokes `complete()` (observable as exactly one new
`timerComplete` event) exactly when that value is 0. -/
theorem C4_tick_derives_from_end_time (w : TimerWorld) (now e : Nat)
    (h : w.state.endTime = some e) :
    ((max 0 (((e : Int) - (now : Int) + 999) / 1000)).toNat ≠ 0 →
      (Timer.tick w now).state.timeRemaining =
          (max 0 (((e : Int) - (now : Int) + 999) / 1000)).toNat ∧
        (Timer.tick w now).completions = w.completions) ∧
    ((max 0 (((e : Int) - (now : Int) + 999) / 1000)).toNat = 0 →
      (Timer.tick w now).completions = w.completions ++ [w.state.mode]) ∧
    (∀ r : Nat,
      Timer.tick { w with state := { w.state with timeRemaining := r } } now =
        Timer.tick w now) := by
  obtain ⟨⟨ir, ip, m, tr, st, et⟩, d, stats, comps⟩ := w
  simp only at h
  subst h
  refine ⟨?_, ?_, ?_⟩
  · intro hne
    simp [Timer.tick, Timer.timeLeft, hne]
  · intro hz
    cases ir <;> cases m <;>
      simp [Timer.tick, Timer.timeLeft, hz, Timer.complete, Timer.pause,
            Timer.changeMode, Timer.showCompletionMessage]
  · intro r
    simp [Timer.tick]

/-- Witness for C4: a running world armed to end at instant 5000, ticked at
instant 2500, reads 3 seconds remaining and completes nothing. -/
theorem C4_witness :
    (Timer.tick runningWorld5000 2500).state.timeRemaining = 3 ∧
    (Timer.tick runningWorld5000 2500).completions = runningWorld5000.completions := by
  have h := C4_tick_derives_from_end_time runningWorld5000 2500 5000 (by decide)
  have h1 := h.1 (by decide)
  exact ⟨h1.1.trans (by decide), h1.2⟩

/-- A tick that finds 0 seconds left on a running work timer completes:
it stops, updates the persisted stats, announces once, and re-arms for an
idle break. -/
theorem tick_complete_work (ip : Bool) (tr : Nat) (st : Option Nat)
    (now e dw db : Nat) (stats : TimerData) (comps : List Mode)
    (hz : Timer.timeLeft (some e) now = 0) :
    Timer.tick ⟨⟨true, ip, Mode.work, tr, st, some e⟩, ⟨dw, db⟩, stats, comps⟩ now =
      ⟨⟨false, false, Mode.«break», db, none, none⟩, ⟨dw, db⟩,
        addStudyTime (incrementSession stats (getTodayString now)) ((dw : ℚ) / 60),
        comps ++ [Mode.work]⟩ := by
  simp [Timer.tick, hz, Timer.complete, Timer.pause, Timer.changeMode,
        Timer.showCompletionMessage, Durations.get]

/-- Claim C3: with durations {work := 1500, break := 300}, a work timer
started at t = 0 and ticked at t = 1500000 ms computes 0 seconds left,
fires complete() exactly once, increments sessionsToday and totalSessions
by one, adds 25 minutes, switches to break mode re-armed to 300 seconds,
and ends idle (not running, not paused). -/
theorem C3_work_session_completion (stats : TimerData)
    (hs : stats.lastSession = some 0 ∨ stats.sessionsToday = 0) :
    Timer.timeLeft (Timer.start (c3World stats) 0).state.endTime 1500000 = 0 ∧
    (c3Run stats).completions = [Mode.work] ∧
    (c3Run stats).stats.sessionsToday = stats.sessionsToday + 1 ∧
    (c3Run stats).stats.totalSessions = stats.totalSessions + 1 ∧
    (c3Run stats).stats.totalMinutes = stats.totalMinutes + 25 ∧
    (c3Run stats).state.mode = Mode.«break» ∧
    (c3Run stats).state.timeRemaining = 300 ∧
    (c3Run stats).state.isRunning = false ∧
    (c3Run stats).state.isPaused = false := by
  obtain ⟨sd, ts, tm, ls⟩ := stats
  simp only at hs
  have htl : Timer.timeLeft (some 1500000) 1500000 = 0 := by decide
  have h1 : Timer.start (c3World ⟨sd, ts, tm, ls⟩) 0 =
      ⟨⟨true, false, Mode.work, 1500, some 0, some 1500000⟩, ⟨1500, 300⟩,
        ⟨sd, ts, tm, ls⟩, []⟩ := by
    have h0 := start_idle_fresh false Mode.work 1500 0 none ⟨1500, 300⟩
      ⟨sd, ts, tm, ls⟩ []
    norm_num at h0
    exact h0
  have h2 := tick_complete_work false 1500 (some 0) 1500000 1500000 1500 300
    ⟨sd, ts, tm, ls⟩ [] htl
  have hrun : c3Run ⟨sd, ts, tm, ls⟩ =
      ⟨⟨false, false, Mode.«break», 300, none, none⟩, ⟨1500, 300⟩,
        addStudyTime (incrementSession ⟨sd, ts, tm, ls⟩ (getTodayString 1500000))
          (((1500 : Nat) : ℚ) / 60),
        [Mode.work]⟩ := by
    unfold c3Run
    rw [h1, h2]
    simp
  have hts : getTodayString 1500000 = 0 := by decide
  rw [hts] at hrun
  have hstats : (incrementSession ⟨sd, ts, tm, ls⟩ 0).sessionsToday = sd + 1 ∧
      (incrementSession ⟨sd, ts, tm, ls⟩ 0).totalSessions = ts + 1 ∧
      (incrementSession ⟨sd, ts, tm, ls⟩ 0).totalMinutes = tm := by
    by_cases hl : ls = some 0
    · simp [incrementSession, hl]
    · have hsd : sd = 0 := by
        rcases hs with h | h
        · exact absurd h hl
        · exact h
      simp [incrementSession, hl, hsd]
  refine ⟨by rw [h1]; exact htl, by rw [hrun], ?_, ?_, ?_,
    by rw [hrun], by rw [hrun], by rw [hrun], by rw [hrun]⟩
  · rw [hrun]
    simp [addStudyTime, hstats.1]
  · rw [hrun]
    simp [addStudyTime, hstats.2.1]
  · rw [hrun]
    simp [addStudyTime, hstats.2.2]
    norm_num

/-- Witness for C3 at the default (all-zero) stats record. -/
theorem C3_witness :
    (defaultTimerData.lastSession = some 0 ∨ defaultTimerData.sessionsToday = 0) ∧
    (c3Run defaultTimerData).stats.sessionsToday = defaultTimerData.sessionsToday + 1 ∧
    (c3Run defaultTimerData).stats.totalSessions = defaultTimerData.totalSessions + 1 ∧
    (c3Run defaultTimerData).state.mode = Mode.«break» ∧
    (c3Run defaultTimerData).state.timeRemaining = 300 :=
  have h := C3_work_session_completion defaultTimerData (Or.inr (by decide))
  ⟨Or.inr (by decide), h.2.2.1, h.2.2.2.1, h.2.2.2.2.2.1, h.2.2.2.2.2.2.1⟩

/-- Claim C8: with both minute arguments positive (the caller-side
precondition), setDurations stores workMinutes*60 and breakMinutes*60 as
the new durations and resets: the mode is kept, the timer ends idle with
cleared start/end times, and timeRemaining becomes the current mode's new
duration (in particular workMinutes*60 in work mode). -/
theorem C8_setDurations_resets (w : TimerWorld) (workMinutes breakMinutes : Nat)
    (_hw : 0 < workMinutes) (_hb : 0 < breakMinutes) :
    (Timer.setDurations w workMinutes breakMinutes).durations.work = workMinutes * 60 ∧
    (Timer.setDurations w workMinutes breakMinutes).durations.«break» = breakMinutes * 60 ∧
    (Timer.setDurations w workMinutes breakMinutes).state.mode = w.state.mode ∧
    (Timer.setDurations w workMinutes breakMinutes).state.isRunning = false ∧
    (Timer.setDurations w workMinutes breakMinutes).state.isPaused = false ∧
    (Timer.setDurations w workMinutes breakMinutes).state.startTime = none ∧
    (Timer.setDurations w workMinutes breakMinutes).state.endTime = none ∧
    (Timer.setDurations w workMinutes breakMinutes).state.timeRemaining =
      (Durations.mk (workMinutes * 60) (breakMinutes * 60)).get w.state.mode ∧
    (w.state.mode = Mode.work →
      (Timer.setDurations w workMinutes breakMinutes).state.timeRemaining =
        workMinutes * 60) := by
  obtain ⟨⟨ir, ip, m, tr, st, et⟩, d, stats, comps⟩ := w
  cases ir <;> cases m <;>
    simp [Timer.setDurations, Timer.reset, Timer.pause, Durations.get]

/-- Witness for C8: setDurations(50, 10) on an idle work-mode timer leaves
3000 seconds remaining. -/
theorem C8_witness :
    0 < 50 ∧ 0 < 10 ∧
    (Timer.setDurations idleWorld10 50 10).state.timeRemaining = 3000 := by
  have h := C8_setDurations_resets idleWorld10 50 10 (by decide) (by decide)
  have h9 := h.2.2.2.2.2.2.2.2 (by decide)
  exact ⟨by decide, by decide, h9.trans (by norm_num)⟩

/-- Claim C10: reset() keeps the mode and never touches the persisted stats
(nor the durations or the event log); it only rewrites the timing fields:
both flags cleared, start/end times cleared, and timeRemaining re-armed to
the current mode's configured duration. -/
theorem C10_reset_frame (w : TimerWorld) :
    (Timer.reset w).state.mode = w.state.mode ∧
    (Timer.reset w).stats = w.stats ∧
    (Timer.reset w).durations = w.durations ∧
    (Timer.reset w).completions = w.completions ∧
    (Timer.reset w).state.isRunning = false ∧
    (Timer.reset w).state.isPaused = false ∧
    (Timer.reset w).state.startTime = none ∧
    (Timer.reset w).state.endTime = none ∧
    (Timer.reset w).state.timeRemaining = w.durations.get w.state.mode := by
  obtain ⟨⟨ir, ip, m, tr, st, et⟩, d, stats, comps⟩ := w
  cases ir <;> simp [Timer.reset, Timer.pause]

/-! ## Store adapter claim -/

/-- Claim C9: for every key and caller-supplied default, a read that fails
(missing key, or a stored payload the deserializer rejects) returns the
default; a write whose underlying store operation throws returns false and
leaves the store as it was; a successful write returns true.  Both
functions are total, so no error propagates. -/
theorem C9_store_fails_soft {α : Type} (parse : String → Option α)
    (stringify : α → String) (setItem : Store → String → String → Option Store)
    (store : Store) (key : String) (deflt v : α) :
    (store key = none → Storage.get parse store key deflt = deflt) ∧
    (∀ item, store key = some item → item ≠ "" → parse item = none →
      Storage.get parse store key deflt = deflt) ∧
    (setItem store key (stringify v) = none →
      Storage.set stringify setItem store key v = (store, false)) ∧
    (∀ st2, setItem store key (stringify v) = some st2 →
      Storage.set stringify setItem store key v = (st2, true)) := by
  refine ⟨?_, ?_, ?_, ?_⟩
  · intro h
    simp [Storage.get, h]
  · intro item h hne hp
    simp [Storage.get, h, hne, hp]
  · intro h
    simp [Storage.set, h]
  · intro st2 h
    simp [Storage.set, h]

/-- Witness for C9: reading a missing key returns the default, and a write
through a throwing setItem reports false with the store unchanged. -/
theorem C9_witness :
    Storage.get failingParse emptyStore probeKey 7 = 7 ∧
    Storage.set natStringify failingSetItem emptyStore probeKey 5 =
      (emptyStore, false) :=
  have h := C9_store_fails_soft failingParse natStringify failingSetItem
    emptyStore probeKey 7 5
  ⟨h.1 rfl, h.2.2.1 rfl⟩

end LSAT
